import Mathlib

/-!
# Verification of `mfsck` (ELKS `tools/mfsck/mfsck.c`)

Shallow embedding of the parts of the Minix filesystem checker `mfsck.c`
that the claims C1..C10 are about.  Each definition is translated from the
C source; line numbers in the doc comments refer to `mfsck.c`.

Machine integers are modelled as `Nat`, with wrap-around written out
explicitly (`% 2^32`) at the places where the C code can overflow or
underflow an `unsigned int`.
-/

namespace Mfsck

/-- `BLOCK_SIZE` (mfsck.h via usage at lines 572, 580): 1024 bytes.
The checker rejects any other size (line 619-620). -/
def BLOCK_SIZE : Nat := 1024

/-- `MAX_DEPTH` (line 142): the name stack holds at most 50 components. -/
def MAX_DEPTH : Nat := 50

/-- Modelled from the spec: `MINIX_VALID_FS = 0x0001` (spec section 6,
"State flags"); the value lives in `mfsck.h`, which is not in the sources. -/
def MINIX_VALID_FS : Nat := 1

/-- Modelled from the spec: `MINIX_ERROR_FS = 0x0002` (spec section 6,
"State flags"); the value lives in `mfsck.h`, which is not in the sources. -/
def MINIX_ERROR_FS : Nat := 2

/-! ## Superblock state update (`write_super_block`, lines 536-555)

```c
Super.s_state |= MINIX_VALID_FS;
if ( errors_uncorrected )
        Super.s_state |= MINIX_ERROR_FS;
else
        Super.s_state &= ~MINIX_ERROR_FS;
```

`s_state` is a 16-bit field; `&= ~MINIX_ERROR_FS` stores the low 16 bits of
the masked value back.  We model the field as a `Nat` below `2^16`. -/

/-- The new `s_state` computed by `write_super_block` from the old state and
the `errors_uncorrected` flag. -/
def write_super_block_state (state : Nat) (errors_uncorrected : Bool) : Nat :=
  let s1 := state ||| MINIX_VALID_FS
  if errors_uncorrected then
    s1 ||| MINIX_ERROR_FS
  else
    (s1 &&& (65535 - MINIX_ERROR_FS)) % 65536

/-! ## Exit code (`main`, lines 1276, 1413-1417)

```c
int retcode = 0;
...
if (changed)
      retcode += 3;
if (errors_uncorrected)
      retcode += 4;
return retcode;
```
-/

/-- The exit code returned by `main` when the check runs to completion
(no `die`, no `usage`). -/
def retcode (changed errors_uncorrected : Bool) : Nat :=
  (if changed then 3 else 0) + (if errors_uncorrected then 4 else 0)

/-! ## Zone number validation (`check_zone_nr`, lines 347-368 and
`check_zone_nr2`, lines 370-391)

Both functions have the same body, differing only in the width of `*nr`
(`unsigned short` v1, `unsigned int` v2):

```c
if (!*nr) return 0;
if (*nr < FIRSTZONE)      { printf(...); }
else if (*nr >= ZONES)    { printf(...); }
else return *nr;
if (ask("Remove block",1)) { *nr = 0; *corrected = 1; }
return 0;
```

The model takes the geometry and the operator's answer to the one possible
question, and returns the result together with the new value stored through
`nr` and the new value of `*corrected`. -/

/-- Result of `check_zone_nr`: returned zone, value left in `*nr`, and the
new value of `*corrected` (given its value on entry). -/
def check_zone_nr (nr FIRSTZONE ZONES : Nat) (askRemove : Bool)
    (corrected : Bool) : Nat × Nat × Bool :=
  if nr = 0 then (0, nr, corrected)
  else if nr < FIRSTZONE ∨ ZONES ≤ nr then
    if askRemove then (0, 0, true) else (0, nr, corrected)
  else (nr, nr, corrected)

/-- `check_zone_nr2` (lines 370-391): identical body to `check_zone_nr`,
operating on a 32-bit field. -/
def check_zone_nr2 (nr FIRSTZONE ZONES : Nat) (askRemove : Bool)
    (corrected : Bool) : Nat × Nat × Bool :=
  if nr = 0 then (0, nr, corrected)
  else if nr < FIRSTZONE ∨ ZONES ≤ nr then
    if askRemove then (0, 0, true) else (0, nr, corrected)
  else (nr, nr, corrected)

/-! ## Zone accounting (`add_zone`, lines 783-814 and `add_zone2`,
lines 816-847)

```c
block = check_zone_nr(znr, corrected);
if (!block) return 0;
if (zone_count[block]) {
        printf(...);
        if (ask("Clear",1)) { *znr = 0; block = 0; *corrected = 1; }
}
if (!block) return 0;
if (!zone_in_use(block)) { printf(...); if (ask("Correct",1)) mark_zone(block); }
if (!++zone_count[block]) zone_count[block]--;
return block;
```

The model records, in order, every index at which the `zone_count` array is
read or written, so that the in-bounds property of claim C10 can be stated
about exactly the accesses the code performs. -/

/-- `add_zone` modelled on geometry, the current `zone_count` table (as a
function), the zone bitmap (as a predicate), and the operator's answers.
Returns the returned block and the list of `zone_count` indices accessed. -/
def add_zone (znr FIRSTZONE ZONES : Nat) (zone_count : Nat → Nat)
    (zone_in_use : Nat → Bool) (askRemove askClear : Bool) :
    Nat × List Nat :=
  let c := check_zone_nr znr FIRSTZONE ZONES askRemove false
  let block := c.1
  if block = 0 then (0, [])
  else
    -- read of zone_count[block]
    if zone_count block ≠ 0 ∧ askClear then (0, [block])
    else
      -- the `!zone_in_use(block)` test touches zone_map, not zone_count
      let _ := zone_in_use block
      -- `if (!++zone_count[block]) zone_count[block]--;` reads and writes
      -- zone_count[block] (saturating increment)
      (block, [block, block])

/-- `add_zone2` (lines 816-847): identical body to `add_zone`, calling
`check_zone_nr2`. -/
def add_zone2 (znr FIRSTZONE ZONES : Nat) (zone_count : Nat → Nat)
    (zone_in_use : Nat → Bool) (askRemove askClear : Bool) :
    Nat × List Nat :=
  let c := check_zone_nr2 znr FIRSTZONE ZONES askRemove false
  let block := c.1
  if block = 0 then (0, [])
  else
    if zone_count block ≠ 0 ∧ askClear then (0, [block])
    else
      let _ := zone_in_use block
      (block, [block, block])

/-! ## v2 block mapping (`map_block2`, lines 479-534)

`map_block2` routes a logical block index `blknr` (an `unsigned int`) to one
of the zone slots of a v2 inode:

```c
if (blknr < 7) return check_zone_nr2 (inode->i_zone + blknr, &changed);
blknr -= 7;
if (blknr < 256) {            /* single indirect via zone[7] */ ... }
blknr -= 256;
if (blknr >= 256 * 256) {     /* uses zone[8], dind[blknr/256], ind[blknr%256] */ ... }
blknr -= 256 * 256;           /* underflows when blknr < 65536 */
/* uses zone[9], tind[blknr/(256*256)], dind[(blknr/256)%256], ind[blknr%256] */
```

We model the routing decision: which zone slot is dereferenced and which
indices are used at each indirection level.  The `unsigned int` subtraction
`blknr -= 256 * 256` is modelled as addition of `2^32 - 65536` modulo
`2^32`, which is what the C code computes when `blknr < 65536`. -/

/-- The route taken by `map_block2`: which `i_zone` slot is used and the
index taken inside each indirection block. -/
inductive Route where
  | direct (slot : Nat)
  | single (i : Nat)
  | double (i j : Nat)
  | triple (i j k : Nat)
  deriving DecidableEq, Repr

/-- The routing of `map_block2` (lines 486-533), faithful to the source
including the inverted `blknr >= 256 * 256` test (line 499) and the
unsigned underflow at line 514.  `Route.single i` means slot 7 is used with
index `i` in the indirect block, `Route.double i j` means slot 8 with
indices `i` then `j`, and `Route.triple i j k` means slot 9. -/
def map_block2_route (blknr : Nat) : Route :=
  if blknr < 7 then .direct blknr
  else
    let b1 := blknr - 7
    if b1 < 256 then .single b1
    else
      let b2 := b1 - 256
      if 256 * 256 ≤ b2 then .double (b2 / 256) (b2 % 256)
      else
        let b3 := (b2 + (2 ^ 32 - 256 * 256)) % 2 ^ 32
        .triple (b3 / (256 * 256)) ((b3 / 256) % 256) (b3 % 256)

/-- Modelled from the spec: the intended v2 routing (spec section 4.G):
`n < 7` direct; `n < 7+256` single via `zone[7]`; `n < 7+256+65536` double
via `zone[8]` (fan-out 256 x 256); otherwise triple via `zone[9]`. -/
def spec_map_block2_route (blknr : Nat) : Route :=
  if blknr < 7 then .direct blknr
  else if blknr < 7 + 256 then .single (blknr - 7)
  else if blknr < 7 + 256 + 65536 then
    .double ((blknr - 7 - 256) / 256) ((blknr - 7 - 256) % 256)
  else
    let b := blknr - 7 - 256 - 65536
    .triple (b / (256 * 256)) ((b / 256) % 256) (b % 256)

/-! ## Command line parsing and the clean gate (`main`, lines 1294-1343)

Option characters are handled by the `switch` at lines 1302-1311:

```c
case 'l': list=1; break;
case 'a': automatic=1; repair=1; break;
case 'r': automatic=0; repair=1; break;
case 'v': verbose=1; break;
case 's': show=1; break;
case 'm': warn_mode=1; break;
case 'f': force=1; break;
default: usage();
```

with initial values from lines 128-131:

```c
static int repair=0, automatic=0, verbose=1, list=0, show=0, warn_mode=0,
        force=1;
```

Note `force` is initialised to `1`.  The gate at lines 1337-1343:

```c
if ( !(Super.s_state & MINIX_ERROR_FS) &&
      (Super.s_state & MINIX_VALID_FS) &&
      !force ) {
        if (repair) printf("%s is clean, no check.\n", ...);
        return retcode;      /* retcode == 0 here */
}
```
-/

/-- The command-line flag variables of `mfsck.c` (lines 128-131). -/
structure Flags where
  list : Bool
  automatic : Bool
  repair : Bool
  verbose : Bool
  show_ : Bool
  warn_mode : Bool
  force : Bool
  deriving DecidableEq, Repr

/-- Initial flag values (lines 128-131): `verbose=1` and `force=1`, all
others `0`. -/
def initFlags : Flags :=
  { list := false, automatic := false, repair := false, verbose := true,
    show_ := false, warn_mode := false, force := true }

/-- One step of the option `switch` (lines 1302-1311).  An unrecognised
option character calls `usage()`, which exits with code 16; that is
modelled as `none`. -/
def applyOpt (f : Flags) (c : Char) : Option Flags :=
  if c = 'l' then some { f with list := true }
  else if c = 'a' then some { f with automatic := true, repair := true }
  else if c = 'r' then some { f with automatic := false, repair := true }
  else if c = 'v' then some { f with verbose := true }
  else if c = 's' then some { f with show_ := true }
  else if c = 'm' then some { f with warn_mode := true }
  else if c = 'f' then some { f with force := true }
  else none

/-- Folding the option characters of the whole command line (the inner
`while (*++argv[0]) switch` loop, once per `-`-argument). -/
def parseOpts (cs : List Char) : Option Flags :=
  cs.foldlM applyOpt initFlags

/-- The clean gate of `main` (lines 1337-1339): the check is skipped and the
process returns 0 exactly when `ERROR_FS` is clear, `VALID_FS` is set, and
`force` is zero. -/
def cleanGate (valid_fs error_fs force : Bool) : Bool :=
  !error_fs && valid_fs && !force

/-! ## Reconciliation of zones (`check_counts`, lines 1180-1197 and
`check_counts2`, lines 1234-1252)

The per-zone body of the loop is, identically in both versions:

```c
if (zone_in_use(i) == zone_count[i]) continue;
if (!zone_count[i]) {
        if (bad_zone(i)) continue;
        printf("Zone %d: marked in use, no file uses it.", i);
        if (ask("Unmark",1)) unmark_zone(i);
        continue;
}
if (zone_in_use(i))
        printf("Zone %d: in use, counted=%d\n", i, zone_count[i]);
else
        printf("Zone %d: not in use, counted=%d\n", i, zone_count[i]);
```

`zone_in_use(i)` is `bit(zone_map, i-FIRSTZONE+1) != 0`, an `int` that is 0
or 1, and `zone_count[i]` is an `unsigned char`; the `==` compares the two
numbers. -/

/-- What the zone loop of `check_counts` does for one zone. -/
inductive ZoneAction where
  /-- `continue` with no diagnostic and no question. -/
  | skip
  /-- "Zone marked in use, no file uses it" and the "Unmark" question. -/
  | askUnmark
  /-- informational "Zone ...: (not) in use, counted=..." print, no
  question. -/
  | info
  deriving DecidableEq, Repr

/-- The zone-loop body of `check_counts`/`check_counts2` for one zone, given
the bitmap bit, the observed count, and whether `bad_zone` reports a read
failure. -/
def zoneAction (in_use : Bool) (count : Nat) (bad : Bool) : ZoneAction :=
  if (if in_use then 1 else 0) = count then .skip
  else if count = 0 then
    if bad then .skip else .askUnmark
  else .info

/-- The skip predicate that claim C3 attributes to the code: skip iff
`zone_in_use(z)` equals the boolean `zone_count[z] != 0`. -/
def claimedSkip (in_use : Bool) (count : Nat) : Bool :=
  in_use = decide (count ≠ 0)

/-! ## The operator interface (`ask`, lines 253-293)

```c
if (!repair) { printf("\n"); errors_uncorrected = 1; return 0; }
if (automatic) { printf("\n"); if (!def) errors_uncorrected = 1; return def; }
printf(def?"%s (y/n)? ":"%s (n/y)? ",string);
for (;;) {
        fflush(stdout);
        if ((c=getchar())==EOF) { if (!def) errors_uncorrected = 1; return def; }
        c=toupper(c);
        if (c == 'Y') { def = 1; break; }
        else if (c == 'N') { def = 0; break; }
        else if (c == ' ' || c == '\n') break;
}
if (def) printf("y\n");
else { printf("n\n"); errors_uncorrected = 1; }
return def;
```

The model returns the answer together with whether this call raised
`errors_uncorrected`. -/

/-- The interactive input loop of `ask`, consuming stdin characters; `[]` is
end of file.  In every exit path the flag is raised exactly when the
resulting answer is "no". -/
def askLoop (d : Bool) : List Char → Bool × Bool
  | [] => (d, !d)
  | c :: rest =>
    let cu := c.toUpper
    if cu = 'Y' then (true, false)
    else if cu = 'N' then (false, true)
    else if cu = ' ' ∨ cu = '\n' then (d, !d)
    else askLoop d rest

/-- `ask` (lines 253-293): answer and whether `errors_uncorrected` was set
by this call, as a function of the `repair`/`automatic` flags, the default,
and the stdin characters available. -/
def ask (repair automatic d : Bool) (input : List Char) : Bool × Bool :=
  if !repair then (false, true)
  else if automatic then (d, !d)
  else askLoop d input

/-! ## Run trace for the read-only property (claim C4)

Every corruption site in `mfsck.c` is of one of two shapes:

* an `if (ask(...)) { mutation }` site, where the mutation sets `changed`
  (directly, or through the `mark_*`/`unmark_*` macros of lines 177-181)
  and/or performs inline `write_block` calls.  These are the sites at lines
  363-366, 683-684 and 733-737 (`Mark in use`), 796-800 and 829-833
  (`Clear`), 808-809 and 841-842 (`Correct`), 983-986 and 1050-1053
  (`Remove`), 1152-1155 and 1207-1210 (`Clear` mode), 1161-1162 and
  1216-1217 (`Clear` bitmap), 1168-1169 and 1222-1223 (`Set`), 1174-1177
  and 1228-1231 (`Set i_nlinks to count`), 1187-1188 and 1242-1243
  (`Unmark`) — and the `write_block(block, ...)` calls in `map_block`,
  `map_block2` and the `add_zone_*` helpers, which are all guarded by a
  `blk_chg`/`chg_blk` variable that only `ask`-guarded mutations set;

* a site that sets `errors_uncorrected = 1` directly without a question
  (lines 407, 413, 654, 686, 713-714, 761-762, 999, 1007, 1066, 1075,
  1112, 1130).

A run of the checking phase is modelled as a list of such sites folded over
the run state.  The write-back epilogue of `main` (lines 1398-1408) and the
device-open mode (line 1322) are modelled separately below. -/

/-- A write issued to the device: an inline `write_block`, the
`write_tables()` flush (line 1399), or the lone `write_super_block()` of
line 1408. -/
inductive WriteEvt where
  | block (nr : Nat)
  | tables
  | superOnly
  deriving DecidableEq, Repr

/-- The global state the claims observe: `changed` (line 133),
`errors_uncorrected` (line 134), and the writes issued so far. -/
structure RunState where
  changed : Bool
  errors_uncorrected : Bool
  writes : List WriteEvt
  deriving DecidableEq, Repr

/-- A corruption site encountered during the run: either an `ask`-guarded
repair (with the question's default, the operator's stdin characters, and
the mutation's effect), or a direct `errors_uncorrected = 1`. -/
inductive Site where
  | prompt (d : Bool) (input : List Char) (setsChanged : Bool)
      (blocks : List Nat)
  | direct

/-- Effect of one corruption site on the run state.  For a `prompt` site the
mutation runs only when `ask` answers yes. -/
def runSite (repair automatic : Bool) (s : RunState) : Site → RunState
  | .prompt d input setsChanged blocks =>
    let a := ask repair automatic d input
    let s1 := { s with
      errors_uncorrected := s.errors_uncorrected || a.2 }
    if a.1 then
      { s1 with changed := s1.changed || setsChanged,
                writes := s1.writes ++ blocks.map WriteEvt.block }
    else s1
  | .direct => { s with errors_uncorrected := true }

/-- Running a whole checking phase: the sites are visited in order, each
one transforming the state (a left fold). -/
def runTrace (repair automatic : Bool) : List Site → RunState → RunState
  | [], s => s
  | site :: rest, s =>
    runTrace repair automatic rest (runSite repair automatic s site)

/-- The write-back epilogue of `main` (lines 1398-1408): `write_tables()`
if `changed`, otherwise `write_super_block()` alone if `repair`. -/
def epilogueWrites (repair : Bool) (s : RunState) : List WriteEvt :=
  s.writes ++
    (if s.changed then [WriteEvt.tables]
     else if repair then [WriteEvt.superOnly] else [])

/-- Line 1322: `IN = open(device_name, repair ? O_RDWR : O_RDONLY)`.
`true` means the device is opened read-write. -/
def openReadWrite (repair : Bool) : Bool := repair

/-! ## `write_block` (lines 420-438)

```c
if (!nr) return;
if (nr < FIRSTZONE || nr >= ZONES) {
        printf("Internal error: trying to write bad block\nWrite request ignored\n");
        errors_uncorrected = 1;
        return;
}
if (BLOCK_SIZE*nr != lseek(IN, BLOCK_SIZE*nr, SEEK_SET))
        die("seek failed in write_block");
if (BLOCK_SIZE != write(IN, addr, BLOCK_SIZE)) {
        printf("Write error: bad block in file '%s'\n", current_name);
        errors_uncorrected = 1;
}
```
-/

/-- The possible outcomes of `write_block`. -/
inductive WriteOutcome where
  /-- `nr == 0`: dropped with no message and no flag. -/
  | droppedSilently
  /-- `nr` out of `[FIRSTZONE, ZONES)`: message printed, flag raised, no
  device access. -/
  | droppedFlagged
  /-- the seek failed: `die` exits with code 8. -/
  | seekDied
  /-- one `write()` issued and it succeeded. -/
  | ok
  /-- one `write()` issued, it failed: message printed, flag raised, no
  retry. -/
  | failedFlagged
  deriving DecidableEq, Repr

/-- `write_block` (lines 420-438), as a function of the block number, the
geometry, and whether the seek and the underlying `write()` succeed. -/
def write_block (nr FIRSTZONE ZONES : Nat) (seekOk writeOk : Bool) :
    WriteOutcome :=
  if nr = 0 then .droppedSilently
  else if nr < FIRSTZONE ∨ ZONES ≤ nr then .droppedFlagged
  else if !seekOk then .seekDied
  else if !writeOk then .failedFlagged
  else .ok

/-- Whether an outcome of `write_block` sets `errors_uncorrected`. -/
def writeRaisesFlag : WriteOutcome → Bool
  | .droppedFlagged => true
  | .failedFlagged => true
  | _ => false

/-- How many `write()` calls an outcome of `write_block` issued to the
device ("not retried" = at most one). -/
def writeAttempts : WriteOutcome → Nat
  | .ok => 1
  | .failedFlagged => 1
  | _ => 0

/-! ## Directory stride detection (`read_superblock`, lines 601-618 and
`get_dirsize`, lines 569-588)

`read_superblock` sets `namelen`/`dirsize`/`version2` from the magic
number; `read_tables` (line 656) then calls `get_dirsize`, which scans the
root directory's first block:

```c
for (size = 16; size < BLOCK_SIZE; size <<= 1) {
        if (strcmp (blk + size + 2, "..") == 0) {
                dirsize = size;
                namelen = size - 2;
                return;
        }
}
/* use defaults */
```

On no match the variables keep the values `read_superblock` assigned. -/

/-- The four supported magic numbers (lines 601-617); the numeric values
live in `mfsck.h`.  `v1_14` is `MINIX_SUPER_MAGIC`, `v1_30` is
`MINIX_SUPER_MAGIC2`, `v2_14` is `MINIX2_SUPER_MAGIC`, `v2_30` is
`MINIX2_SUPER_MAGIC2`. -/
inductive Magic where
  | v1_14
  | v1_30
  | v2_14
  | v2_30
  deriving DecidableEq, Repr

/-- `(namelen, dirsize, version2)` as assigned by `read_superblock`
(lines 601-617). -/
def magicParams : Magic → Nat × Nat × Bool
  | .v1_14 => (14, 16, false)
  | .v1_30 => (30, 32, false)
  | .v2_14 => (14, 16, true)
  | .v2_30 => (30, 32, true)

/-- `strcmp(blk + size + 2, "..") == 0`: the three bytes at offsets
`size+2 .. size+4` are '.', '.', NUL.  The block is a byte function. -/
def dotdotAt (blk : Nat → Nat) (size : Nat) : Bool :=
  blk (size + 2) = 46 ∧ blk (size + 3) = 46 ∧ blk (size + 4) = 0

/-- The sizes probed by the `get_dirsize` loop:
`size = 16; size < 1024; size <<= 1`. -/
def dirsizeProbes : List Nat := [16, 32, 64, 128, 256, 512]

/-- The scan loop of `get_dirsize`: first matching size wins, otherwise the
incoming `(dirsize, namelen)` pair is kept. -/
def get_dirsizeLoop (blk : Nat → Nat) : List Nat → Nat × Nat → Nat × Nat
  | [], dn => dn
  | s :: rest, dn =>
    if dotdotAt blk s then (s, s - 2) else get_dirsizeLoop blk rest dn

/-- `(dirsize, namelen)` after `read_superblock` followed by `get_dirsize`
on the root directory's first block. -/
def dirsizeAfterScan (m : Magic) (blk : Nat → Nat) : Nat × Nat :=
  let p := magicParams m
  get_dirsizeLoop blk dirsizeProbes (p.2.1, p.1)

/-! ## The name stack (`check_file` lines 989-993 / 1012-1014 and
`get_current_name` lines 235-251)

`check_file` pushes a component:

```c
if (name_depth < MAX_DEPTH)
        strncpy (name_list[name_depth], name, namelen);
name_depth++;
```

so the store is skipped beyond `MAX_DEPTH` but the depth counter keeps
growing and the traversal continues.  `get_current_name` renders the path:

```c
while (i < name_depth) {
        p = name_list[i++];
        ...
}
```

reading `name_list[i]` for every `i < name_depth`, with no clamp at
`MAX_DEPTH`. -/

/-- One push of the name stack in `check_file`: the new depth and whether
the component was actually stored in `name_list`.  The traversal never
aborts on overflow: the depth always advances. -/
def pushName (depth : Nat) : Nat × Bool :=
  (depth + 1, depth < MAX_DEPTH)

/-- The `name_list` indices read by the rendering loop of
`get_current_name` at a given `name_depth`. -/
def renderReads (depth : Nat) : List Nat :=
  List.range depth

/-! ## Theorems -/

/-- Helper: `check_zone_nr` returns 0 or a zone in `[FIRSTZONE, ZONES)`. -/
theorem check_zone_nr_range (nr FZ ZS : Nat) (a c : Bool) :
    (check_zone_nr nr FZ ZS a c).1 = 0 ∨
      (FZ ≤ (check_zone_nr nr FZ ZS a c).1 ∧
        (check_zone_nr nr FZ ZS a c).1 < ZS) := by
  unfold check_zone_nr
  split_ifs <;> simp_all

/-- Helper: `check_zone_nr2` returns 0 or a zone in `[FIRSTZONE, ZONES)`. -/
theorem check_zone_nr2_range (nr FZ ZS : Nat) (a c : Bool) :
    (check_zone_nr2 nr FZ ZS a c).1 = 0 ∨
      (FZ ≤ (check_zone_nr2 nr FZ ZS a c).1 ∧
        (check_zone_nr2 nr FZ ZS a c).1 < ZS) := by
  unfold check_zone_nr2
  split_ifs <;> simp_all

/-- C1: the claim says `map_block2` resolves `n < 7+256+65536` through the
double-indirect `zone[8]` and every larger `n` through the triple-indirect
`zone[9]`.  The code has the two swapped: the test at line 499 reads
`blknr >= 256 * 256` where the intent (per the spec and the body of the
branch, whose `dind[blknr/256]` index only fits the 256-entry buffer for
`blknr < 65536`) requires `<`.  At logical block 263 = 7+256 the code takes
the triple-indirect path after `blknr -= 256 * 256` underflows to
`2^32 - 65536` (tind index 65535, far beyond the 256-entry buffer); at
block 65799 = 7+256+65536 it takes the double-indirect path with dind index
256, one past the buffer. -/
theorem C1_map_block2_branches_swapped :
    map_block2_route 263 = Route.triple 65535 0 0 ∧
    spec_map_block2_route 263 = Route.double 0 0 ∧
    map_block2_route 65799 = Route.double 256 0 ∧
    spec_map_block2_route 65799 = Route.triple 0 0 0 := by
  refine ⟨?_, ?_, ?_, ?_⟩ <;> rfl

/-- C3 counterexample: a zone whose bitmap bit is set and whose observed
count is 2 satisfies the claim's skip predicate
(`zone_in_use(z) == (zone_count[z] != 0)`), yet the code does not skip it:
`zone_in_use(i) == zone_count[i]` compares 1 with 2, so the loop falls
through and prints the "in use, counted=" diagnostic. -/
theorem C3_counterexample_count_two :
    claimedSkip true 2 = true ∧ zoneAction true 2 false = ZoneAction.info := by
  decide

/-- C3 amended: the zone loop of `check_counts`/`check_counts2` skips zone
`z` (no diagnostic, no question) iff `zone_in_use(z)` as the number 0 or 1
equals `zone_count[z]` exactly, or `zone_count[z] = 0` and the `bad_zone`
probe fails.  A zone with its bit set and count ≥ 2 is not skipped: the
informational diagnostic is printed (with no repair offered). -/
theorem C3_skip_characterization (in_use bad : Bool) (count : Nat) :
    (zoneAction in_use count bad = ZoneAction.skip ↔
      ((if in_use then 1 else 0) = count ∨ (count = 0 ∧ bad = true))) ∧
    zoneAction true 2 bad = ZoneAction.info := by
  constructor
  · unfold zoneAction
    split_ifs <;> simp_all
  · unfold zoneAction
    split_ifs <;> simp_all

/-- C8: when the check runs to completion, the exit code is 0, plus 3 if
the image was changed, plus 4 if an uncorrectable error was seen: exactly
one of 0, 3, 4, 7, and each value identifies the flag pair. -/
theorem C8_exit_codes (changed errs : Bool) :
    (retcode changed errs = 0 ∨ retcode changed errs = 3 ∨
     retcode changed errs = 4 ∨ retcode changed errs = 7) ∧
    (retcode changed errs = 0 ↔ changed = false ∧ errs = false) ∧
    (retcode changed errs = 3 ↔ changed = true ∧ errs = false) ∧
    (retcode changed errs = 4 ↔ changed = false ∧ errs = true) ∧
    (retcode changed errs = 7 ↔ changed = true ∧ errs = true) := by
  cases changed <;> cases errs <;> decide

/-- C9: the traversal does not abort when the depth passes the 50-entry
name stack (the depth counter advances past `MAX_DEPTH`, merely skipping
the store), but the claim that `get_current_name` then reads only
components stored within the 50-entry stack is false: its loop runs `i`
from 0 to `name_depth - 1` with no clamp, so at depth 51 it reads
`name_list[50]`, one past the end of the 50-entry array — the rendering is
not a truncation to the first 50 components. -/
theorem C9_render_overflow_reads_past_stack :
    (pushName 50).1 = 51 ∧ (pushName 50).2 = false ∧
    50 ∈ renderReads 51 ∧ ¬(50 < MAX_DEPTH) := by
  decide

/-- Helper: no branch of the option `switch` ever clears `force`. -/
theorem applyOpt_force {f g : Flags} {c : Char} (h : applyOpt f c = some g)
    (hf : f.force = true) : g.force = true := by
  unfold applyOpt at h
  split_ifs at h <;> simp_all <;> subst h <;> rfl

/-- Helper: option parsing started from a `force`-set state leaves `force`
set. -/
theorem foldl_applyOpt_force :
    ∀ (cs : List Char) (f g : Flags), f.force = true →
      List.foldlM applyOpt f cs = some g → g.force = true := by
  intro cs
  induction cs with
  | nil =>
    intro f g hf h
    simp only [List.foldlM_nil] at h
    cases h
    exact hf
  | cons c rest ih =>
    intro f g hf h
    simp only [List.foldlM_cons] at h
    cases happ : applyOpt f c with
    | none => rw [happ] at h; cases h
    | some f1 =>
      rw [happ] at h
      exact ih f1 g (applyOpt_force happ hf) h

/-- C2 counterexample: run the checker on a valid, error-free superblock
without passing `-f` (here: options `-r` only).  The claim says the clean
path is taken (report "clean", exit 0, device untouched); but `force` is
initialised to 1 (line 129), so after parsing `force` is still 1 and the
gate `!(ERROR_FS) && VALID_FS && !force` (lines 1337-1339) is false: the
check proceeds instead. -/
theorem C2_counterexample_no_f_still_checks :
    (parseOpts ['r']).map Flags.force = some true ∧
    cleanGate true false true = false := by
  decide

/-- C2 amended: the gate fires only when the `force` variable is zero, but
`force` is initialised to 1 (line 129) and no command-line option clears
it, so for every command line that parses (with or without `-f`) `force` is
set and the clean path is never taken: the checker always proceeds with the
full check. -/
theorem C2_clean_gate_never_fires (cs : List Char) (f : Flags)
    (h : parseOpts cs = some f) :
    f.force = true ∧
    ∀ valid error : Bool, cleanGate valid error f.force = false := by
  have hf : f.force = true := foldl_applyOpt_force cs initFlags f rfl h
  refine ⟨hf, fun valid error => ?_⟩
  simp [cleanGate, hf]

/-- Witness for C2: concrete command line `-r`. -/
theorem C2_clean_gate_never_fires_witness :
    parseOpts ['r'] = some { initFlags with repair := true } ∧
    ({ initFlags with repair := true } : Flags).force = true ∧
    ∀ valid error : Bool,
      cleanGate valid error
        ({ initFlags with repair := true } : Flags).force = false := by
  refine ⟨by decide, ?_, ?_⟩
  · exact (C2_clean_gate_never_fires ['r'] _ (by decide)).1
  · exact (C2_clean_gate_never_fires ['r'] _ (by decide)).2

/-- Helper: with `repair = 0`, every site leaves `changed` and the write
list untouched and forces `errors_uncorrected` as soon as one site ran. -/
theorem runTrace_readonly (automatic : Bool) (sites : List Site)
    (s : RunState) :
    runTrace false automatic sites s =
      { s with errors_uncorrected :=
          s.errors_uncorrected || !sites.isEmpty } := by
  induction sites generalizing s with
  | nil => simp [runTrace]
  | cons site rest ih =>
    have hstep : runSite false automatic s site =
        { s with errors_uncorrected := true } := by
      cases site with
      | prompt d input sc blocks => simp [runSite, ask]
      | direct => simp [runSite]
    simp only [runTrace, hstep, ih]
    simp

/-- C4: when the checker runs without repair mode (`repair = 0`, i.e.
neither `-a` nor `-r`): every call of `ask` answers no; the device is
opened read-only; `changed` stays clear, so neither the inline
`write_block` mutations nor the `write_tables`/`write_super_block`
epilogue write anything; and if any corruption site was encountered,
`errors_uncorrected` is set, so the exit code has the 4 bit set. -/
theorem C4_readonly_no_writes_and_exit4 (automatic : Bool)
    (sites : List Site) :
    (∀ d input, (ask false automatic d input).1 = false) ∧
    openReadWrite false = false ∧
    (runTrace false automatic sites ⟨false, false, []⟩).changed = false ∧
    epilogueWrites false (runTrace false automatic sites ⟨false, false, []⟩)
      = [] ∧
    (sites ≠ [] →
      Nat.testBit
        (retcode (runTrace false automatic sites ⟨false, false, []⟩).changed
          (runTrace false automatic sites
            ⟨false, false, []⟩).errors_uncorrected) 2 = true) := by
  have h := runTrace_readonly automatic sites ⟨false, false, []⟩
  refine ⟨fun d input => by simp [ask], rfl, ?_, ?_, ?_⟩
  · rw [h]
  · rw [h]; simp [epilogueWrites]
  · intro hne
    rw [h]
    have hni : sites.isEmpty = false := by
      cases sites with
      | nil => exact absurd rfl hne
      | cons a l => rfl
    simp only [hni, Bool.not_false, Bool.or_true]
    decide

/-- Witness for C4: a run that hits one direct corruption site. -/
theorem C4_readonly_no_writes_and_exit4_witness :
    ([Site.direct] : List Site) ≠ [] ∧
    Nat.testBit
      (retcode (runTrace false false [Site.direct] ⟨false, false, []⟩).changed
        (runTrace false false [Site.direct]
          ⟨false, false, []⟩).errors_uncorrected) 2 = true := by
  refine ⟨by simp, ?_⟩
  exact (C4_readonly_no_writes_and_exit4 false [Site.direct]).2.2.2.2
    (by simp)

/-- C5: after `write_super_block`, bit 0 (`VALID_FS`) of `s_state` is set,
bit 1 (`ERROR_FS`) equals `errors_uncorrected`, and every other bit is
unchanged.  `s_state` is a 16-bit field, hence the `state < 2^16`
hypothesis. -/
theorem C5_write_super_block_state_bits (state : Nat) (errs : Bool)
    (hs : state < 65536) :
    Nat.testBit (write_super_block_state state errs) 0 = true ∧
    Nat.testBit (write_super_block_state state errs) 1 = errs ∧
    ∀ k, 2 ≤ k →
      Nat.testBit (write_super_block_state state errs) k =
        Nat.testBit state k := by
  have t1k : ∀ k, 2 ≤ k → Nat.testBit 1 k = false := fun k hk =>
    Nat.testBit_eq_false_of_lt
      (lt_of_lt_of_le (by norm_num) (Nat.pow_le_pow_right (by norm_num) hk))
  have t2k : ∀ k, 2 ≤ k → Nat.testBit 2 k = false := fun k hk =>
    Nat.testBit_eq_false_of_lt
      (lt_of_lt_of_le (by norm_num : (2:Nat) < 2 ^ 2)
        (Nat.pow_le_pow_right (by norm_num) hk))
  cases errs with
  | true =>
    have hw : write_super_block_state state true = (state ||| 1) ||| 2 := by
      simp [write_super_block_state, MINIX_VALID_FS, MINIX_ERROR_FS]
    refine ⟨?_, ?_, ?_⟩
    · rw [hw, Nat.testBit_lor, Nat.testBit_lor]
      simp [show Nat.testBit 1 0 = true by decide]
    · rw [hw, Nat.testBit_lor, Nat.testBit_lor]
      simp [show Nat.testBit 2 1 = true by decide]
    · intro k hk
      rw [hw, Nat.testBit_lor, Nat.testBit_lor, t1k k hk, t2k k hk]
      simp
  | false =>
    have hlt : (state ||| 1) &&& 65533 < 65536 :=
      lt_of_le_of_lt (Nat.and_le_right) (by norm_num)
    have hw : write_super_block_state state false
        = (state ||| 1) &&& 65533 := by
      simp [write_super_block_state, MINIX_VALID_FS, MINIX_ERROR_FS,
        Nat.mod_eq_of_lt hlt]
    refine ⟨?_, ?_, ?_⟩
    · rw [hw, Nat.testBit_land, Nat.testBit_lor]
      simp [show Nat.testBit 1 0 = true by decide,
        show Nat.testBit 65533 0 = true by decide]
    · rw [hw, Nat.testBit_land, Nat.testBit_lor]
      simp [show Nat.testBit 65533 1 = false by decide]
    · intro k hk
      rw [hw, Nat.testBit_land, Nat.testBit_lor, t1k k hk]
      rcases Nat.lt_or_ge k 16 with h16 | h16
      · have ht : Nat.testBit 65533 k = true := by
          interval_cases k <;> decide
        simp [ht]
      · have hA : Nat.testBit 65533 k = false :=
          Nat.testBit_eq_false_of_lt
            (lt_of_lt_of_le (by norm_num : (65533:Nat) < 2 ^ 16)
              (Nat.pow_le_pow_right (by norm_num) h16))
        have hpow : (65536 : Nat) ≤ 2 ^ k := by
          calc (65536 : Nat) = 2 ^ 16 := by norm_num
            _ ≤ 2 ^ k := Nat.pow_le_pow_right (by norm_num) h16
        have hB : Nat.testBit state k = false :=
          Nat.testBit_eq_false_of_lt (lt_of_lt_of_le hs hpow)
        simp [hA, hB]

/-- Witness for C5: state `0x2345` with an uncorrectable error recorded. -/
theorem C5_write_super_block_state_bits_witness :
    (9029 : Nat) < 65536 ∧
    (Nat.testBit (write_super_block_state 9029 true) 0 = true ∧
     Nat.testBit (write_super_block_state 9029 true) 1 = true ∧
     ∀ k, 2 ≤ k →
       Nat.testBit (write_super_block_state 9029 true) k =
         Nat.testBit 9029 k) :=
  ⟨by decide, C5_write_super_block_state_bits 9029 true (by decide)⟩

/-- C6 counterexample: `write_block(0, buf)` returns at line 422-423
before the range test, without printing and without setting
`errors_uncorrected`; the claim says every `nr` that is 0 or out of range
sets the uncorrectable flag. -/
theorem C6_counterexample_zone_zero_silent :
    write_block 0 5 100 true true = WriteOutcome.droppedSilently ∧
    writeRaisesFlag (write_block 0 5 100 true true) = false := by
  decide

/-- C6 amended: `write_block(nr, buf)` with `nr = 0` drops the write
silently without raising the flag; a nonzero `nr` outside
`[FIRSTZONE, ZONES)` drops the write, reports it and raises the flag; a
write whose underlying I/O fails is reported, raises the flag, and is not
retried (at most one `write()` is ever issued). -/
theorem C6_write_block_drops_and_no_retry (nr1 nr2 FZ ZS : Nat)
    (seekOk writeOk : Bool) :
    (write_block 0 FZ ZS seekOk writeOk = WriteOutcome.droppedSilently ∧
      writeRaisesFlag (write_block 0 FZ ZS seekOk writeOk) = false ∧
      writeAttempts (write_block 0 FZ ZS seekOk writeOk) = 0) ∧
    (nr1 ≠ 0 → nr1 < FZ ∨ ZS ≤ nr1 →
      write_block nr1 FZ ZS seekOk writeOk = WriteOutcome.droppedFlagged ∧
      writeRaisesFlag (write_block nr1 FZ ZS seekOk writeOk) = true ∧
      writeAttempts (write_block nr1 FZ ZS seekOk writeOk) = 0) ∧
    (nr2 ≠ 0 → ¬(nr2 < FZ ∨ ZS ≤ nr2) →
      write_block nr2 FZ ZS true false = WriteOutcome.failedFlagged ∧
      writeRaisesFlag (write_block nr2 FZ ZS true false) = true ∧
      writeAttempts (write_block nr2 FZ ZS true false) = 1) ∧
    writeAttempts (write_block nr1 FZ ZS seekOk writeOk) ≤ 1 := by
  refine ⟨?_, ?_, ?_, ?_⟩
  · simp [write_block, writeRaisesFlag, writeAttempts]
  · intro h1 h2
    simp [write_block, h1, h2, writeRaisesFlag, writeAttempts]
  · intro h1 h2
    simp [write_block, h1, h2, writeRaisesFlag, writeAttempts]
  · unfold write_block
    split_ifs <;> simp [writeAttempts]

/-- Witness for C6: `FIRSTZONE = 5`, `ZONES = 100`, out-of-range block 200,
in-range block 7 whose `write()` fails. -/
theorem C6_write_block_drops_and_no_retry_witness :
    ((200 : Nat) ≠ 0 ∧ ((200:Nat) < 5 ∨ (100:Nat) ≤ 200) ∧
     (7 : Nat) ≠ 0 ∧ ¬((7:Nat) < 5 ∨ (100:Nat) ≤ 7)) ∧
    write_block 200 5 100 true true = WriteOutcome.droppedFlagged ∧
    write_block 7 5 100 true false = WriteOutcome.failedFlagged := by
  refine ⟨by decide, ?_, ?_⟩
  · exact ((C6_write_block_drops_and_no_retry 200 7 5 100 true true).2.1
      (by decide) (by decide)).1
  · exact ((C6_write_block_drops_and_no_retry 200 7 5 100 true true).2.2.1
      (by decide) (by decide)).1

/-- C7 counterexample: with a 30-character-name magic
(`MINIX_SUPER_MAGIC2` or `MINIX2_SUPER_MAGIC2`) and a root block in which
no probed offset matches `".."` (here: an all-zero block), the run keeps
stride 32 / namelen 30 — not 16 / 14 as the claim says for every supported
magic. -/
theorem C7_counterexample_magic2_defaults :
    dirsizeAfterScan Magic.v1_30 (fun _ => 0) = (32, 30) ∧
    dirsizeAfterScan Magic.v2_30 (fun _ => 0) = (32, 30) ∧
    ((32, 30) : Nat × Nat) ≠ (16, 14) := by
  decide

/-- C7 amended: when no probed offset of the root block matches `".."`,
`get_dirsize` keeps the stride and name length that `read_superblock`
selected from the magic number — 16 / 14 for `MINIX_SUPER_MAGIC` and
`MINIX2_SUPER_MAGIC`, 32 / 30 for `MINIX_SUPER_MAGIC2` and
`MINIX2_SUPER_MAGIC2`. -/
theorem C7_dirsize_defaults_from_magic (m : Magic) (blk : Nat → Nat)
    (h : ∀ s ∈ dirsizeProbes, dotdotAt blk s = false) :
    dirsizeAfterScan m blk = ((magicParams m).2.1, (magicParams m).1) := by
  have h16 := h 16 (by simp [dirsizeProbes])
  have h32 := h 32 (by simp [dirsizeProbes])
  have h64 := h 64 (by simp [dirsizeProbes])
  have h128 := h 128 (by simp [dirsizeProbes])
  have h256 := h 256 (by simp [dirsizeProbes])
  have h512 := h 512 (by simp [dirsizeProbes])
  simp [dirsizeAfterScan, dirsizeProbes, get_dirsizeLoop,
    h16, h32, h64, h128, h256, h512]

/-- Witness for C7: v2 magic with 14-character names and an all-zero root
block. -/
theorem C7_dirsize_defaults_from_magic_witness :
    (∀ s ∈ dirsizeProbes, dotdotAt (fun _ => 0) s = false) ∧
    dirsizeAfterScan Magic.v2_14 (fun _ => 0) =
      ((magicParams Magic.v2_14).2.1, (magicParams Magic.v2_14).1) :=
  ⟨by decide, C7_dirsize_defaults_from_magic Magic.v2_14 (fun _ => 0)
    (by decide)⟩

/-- C10: `check_zone_nr` and `check_zone_nr2` return 0 or a zone in
`[FIRSTZONE, ZONES)`, and consequently every index at which `add_zone` or
`add_zone2` reads or writes the `zone_count` array lies in
`[FIRSTZONE, ZONES)`, inside the `ZONES`-byte allocation of line 643. -/
theorem C10_zone_count_indices_in_range (znr FZ ZS : Nat)
    (zc : Nat → Nat) (zu : Nat → Bool) (a c corr : Bool) :
    ((check_zone_nr znr FZ ZS a corr).1 = 0 ∨
      (FZ ≤ (check_zone_nr znr FZ ZS a corr).1 ∧
        (check_zone_nr znr FZ ZS a corr).1 < ZS)) ∧
    ((check_zone_nr2 znr FZ ZS a corr).1 = 0 ∨
      (FZ ≤ (check_zone_nr2 znr FZ ZS a corr).1 ∧
        (check_zone_nr2 znr FZ ZS a corr).1 < ZS)) ∧
    (∀ i ∈ (add_zone znr FZ ZS zc zu a c).2, FZ ≤ i ∧ i < ZS) ∧
    (∀ i ∈ (add_zone2 znr FZ ZS zc zu a c).2, FZ ≤ i ∧ i < ZS) := by
  refine ⟨check_zone_nr_range znr FZ ZS a corr,
    check_zone_nr2_range znr FZ ZS a corr, ?_, ?_⟩
  · intro i hi
    simp only [add_zone] at hi
    rcases check_zone_nr_range znr FZ ZS a false with h0 | hr
    · simp [h0] at hi
    · by_cases hz : (check_zone_nr znr FZ ZS a false).1 = 0
      · simp [hz] at hi
      · rw [if_neg hz] at hi
        split_ifs at hi <;> simp at hi <;> subst hi <;> exact hr
  · intro i hi
    simp only [add_zone2] at hi
    rcases check_zone_nr2_range znr FZ ZS a false with h0 | hr
    · simp [h0] at hi
    · by_cases hz : (check_zone_nr2 znr FZ ZS a false).1 = 0
      · simp [hz] at hi
      · rw [if_neg hz] at hi
        split_ifs at hi <;> simp at hi <;> subst hi <;> exact hr

/-- Witness for C10: `FIRSTZONE = 3`, `ZONES = 10`, fresh counters, zone 5:
`add_zone` touches `zone_count[5]` twice, and 5 is in range. -/
theorem C10_zone_count_indices_in_range_witness :
    (5 : Nat) ∈ (add_zone 5 3 10 (fun _ => 0) (fun _ => true) false false).2 ∧
    ((3:Nat) ≤ 5 ∧ (5:Nat) < 10) := by
  refine ⟨by decide, ?_⟩
  exact (C10_zone_count_indices_in_range 5 3 10 (fun _ => 0) (fun _ => true)
    false false false).2.2.1 5 (by decide)

end Mfsck
